import Mathlib

/-!
Shallow embedding of the character-consistent scene generator
(src/App.tsx, src/services/gemini.ts, src/types.ts).

Machine model: JavaScript strings are modelled as Lean strings (operations
are re-implemented structurally on the character list, mirroring the JS
semantics used by the source: truthiness of strings, String.prototype.trim,
split(','), toLowerCase, substring/slice, and the regex /^\[(.*?)\]/ where
the dot does not match line terminators).  Remote calls (Gemini image
generation, Date.now, Math.random, JSON.parse, Veo animation) are opaque
environment oracles passed in explicitly.  React state updates are modelled
by explicit state passing on an AppState record, together with an event
trace recording each published state update.
-/

/-- GeneratorState from src/types.ts. -/
inductive GeneratorState where
  | IDLE
  | GENERATING_CHARACTER
  | GENERATING_SCENE
  | GENERATING_ANIMATION
  | ERROR
deriving DecidableEq, Repr

/-- Character from src/types.ts: baseImage is string | null, modelled as Option String. -/
structure Character where
  id : String
  name : String
  description : String
  baseImage : Option String
deriving DecidableEq, Repr

/-- GeneratedScene from src/types.ts: videoUrl is optional. -/
structure GeneratedScene where
  id : String
  prompt : String
  imageData : String
  timestamp : Nat
  videoUrl : Option String
deriving DecidableEq, Repr

/-- GenerationProgress from src/types.ts. -/
structure GenerationProgress where
  current : Nat
  total : Nat
  currentPrompt : Option String
deriving DecidableEq, Repr

/-- A character reference pair passed to scene generation
(the inline record { name, base64 } of src/App.tsx line 123). -/
structure Reference where
  name : String
  base64 : String
deriving DecidableEq, Repr

/-- The React state of App (src/App.tsx lines 16-22).  The JS Set of
animating scene ids is modelled as a duplicate-free list. -/
structure AppState where
  character : Character
  scenes : List GeneratedScene
  status : GeneratorState
  error : Option String
  progress : Option GenerationProgress
  savedCharacters : List Character
  animatingSceneIds : List String
deriving DecidableEq, Repr

/-- One published state update (a setXxx call observed by the UI). -/
inductive Event where
  | setStatus (s : GeneratorState)
  | setError (e : Option String)
  | setProgress (p : Option GenerationProgress)
  | addScene (sc : GeneratedScene)
deriving DecidableEq, Repr

/-- Environment oracle for one batch run: gen is the k-th remote
generateSceneImage call (k counts remote calls actually made), now1/rand/now2
are the Date.now()/Math.random().toString().slice(2)/Date.now() values
observed while minting the k-th successful scene. -/
structure Env where
  gen : Nat → List Reference → String → Except String String
  now1 : Nat → Nat
  rand : Nat → String
  now2 : Nat → Nat

/-! ### JavaScript string primitives, re-implemented structurally -/

/-- Whitespace for String.prototype.trim: space, tab, LF, CR, VT, FF, NBSP
(the code points the claims can exercise; trim also strips further Unicode
space characters, which no claim depends on). -/
def jsIsSpace (c : Char) : Bool :=
  c == ' ' || c == '\t' || c == '\n' || c == '\r' ||
  c == Char.ofNat 11 || c == Char.ofNat 12 || c == Char.ofNat 160

/-- String.prototype.trim. -/
def jsTrim (s : String) : String :=
  ⟨((s.data.dropWhile jsIsSpace).reverse.dropWhile jsIsSpace).reverse⟩

/-- String.prototype.split(',') on the character list: "a,,b" gives
["a", "", "b"] and "" gives [""]. -/
def splitOnComma : List Char → List (List Char)
  | [] => [[]]
  | c :: cs =>
    if c = ',' then [] :: splitOnComma cs
    else
      match splitOnComma cs with
      | [] => [[c]]
      | h :: t => (c :: h) :: t

/-- String.prototype.toLowerCase (ASCII range, which is what character name
matching exercises). -/
def jsToLower (s : String) : String :=
  ⟨s.data.map Char.toLower⟩

/-- String.prototype.substring(0, n) (also slice(0, n) for n ≥ 0). -/
def jsSubstring (s : String) (n : Nat) : String :=
  ⟨s.data.take n⟩

/-- Whether the regex dot matches a character: it matches everything except
the line terminators LF, CR, LINE SEPARATOR, PARAGRAPH SEPARATOR. -/
def dotMatches (c : Char) : Bool :=
  !(c == '\n' || c == '\r' || c == Char.ofNat 0x2028 || c == Char.ofNat 0x2029)

/-- Lazy scan of the regex tail (.*?)\]: the characters strictly before the
first ']' provided every one of them is matched by the dot. -/
def findTagInner : List Char → Option (List Char)
  | [] => none
  | c :: cs =>
    if c = ']' then some []
    else if dotMatches c then (findTagInner cs).map (fun l => c :: l)
    else none

/-- prompt.match(/^\[(.*?)\]/) from src/App.tsx line 122: the captured group
of the anchored leading bracket tag, if the regex matches. -/
def tagMatch (s : String) : Option String :=
  match s.data with
  | '[' :: cs => (findTagInner cs).map (fun l => ⟨l⟩)
  | _ => none

/-! ### Character reference resolver (src/App.tsx lines 122-166) -/

/-- Truthiness test character.baseImage && character.name used at
src/App.tsx lines 132, 148 and 156. -/
def hasImageAndName (c : Character) : Bool :=
  match c.baseImage with
  | some img => img != "" && c.name != ""
  | none => false

/-- references.push({name: character.name, base64: character.baseImage})
guarded by the truthiness test (src/App.tsx lines 148-150 and 156-158). -/
def activeRefs (c : Character) : List Reference :=
  match c.baseImage with
  | some img => if img != "" && c.name != "" then [⟨c.name, img⟩] else []
  | none => []

/-- The names.forEach loop of src/App.tsx lines 136-141: for each tag name
find the first pool character whose name matches case-insensitively, and
push a reference when that character also has a truthy image. -/
def buildReferences (pool : List Character) (names : List String) : List Reference :=
  names.foldl
    (fun refs name =>
      match pool.find? (fun c => jsToLower c.name = jsToLower name) with
      | some found =>
        match found.baseImage with
        | some img => if img = "" then refs else refs ++ [⟨found.name, img⟩]
        | none => refs
      | none => refs)
    []

/-- The message of the error thrown at src/App.tsx line 165. -/
def noRefErr : String := "No character reference found for this scene."

/-- The per-prompt reference resolution of src/App.tsx lines 122-166: tag
parsing, tag-name lookup over savedCharacters plus (conditionally) the
active character, fallback to the active character, and the final
no-reference error. -/
def resolveReferences (prompt : String) (character : Character)
    (savedCharacters : List Character) : Except String (List Reference) :=
  let references :=
    match tagMatch prompt with
    | some inner =>
      let names := (splitOnComma inner.data).map (fun l => jsTrim ⟨l⟩)
      let allAvailable :=
        savedCharacters ++ (if hasImageAndName character then [character] else [])
      buildReferences allAvailable names
    | none => activeRefs character
  let references2 := if references = [] then activeRefs character else references
  if references2 = [] then Except.error noRefErr else Except.ok references2

/-! ### Scene batch orchestrator (src/App.tsx lines 100-189) -/

/-- Scene id minting of src/App.tsx line 171:
Date.now().toString() + Math.random().toString().slice(2).
t is the Date.now() value, r the already-sliced random digit string. -/
def mintId (t : Nat) (r : String) : String :=
  toString t ++ r

/-- The scoped error message of src/App.tsx line 180. -/
def errMsg (prompt msg : String) : String :=
  "Failed to generate \"" ++ jsSubstring prompt 20 ++ "...\": " ++ msg

/-- The for-of loop of src/App.tsx lines 110-185, threading the React state
and the remote-call counter k; cc is completedCount.  Returns the final
state and the trace of published updates. -/
def genLoop (env : Env) (ch : Character) (saved : List Character) (total : Nat) :
    List String → Nat → Nat → AppState → AppState × List Event
  | [], _, _, st => (st, [])
  | p :: rest, cc, k, st =>
    if jsTrim p = "" then genLoop env ch saved total rest cc k st
    else
      let pr : GenerationProgress := ⟨cc + 1, total, some p⟩
      let st1 := { st with progress := some pr }
      match resolveReferences p ch saved with
      | Except.error msg =>
        let e := errMsg p msg
        let out := genLoop env ch saved total rest (cc + 1) k { st1 with error := some e }
        (out.1, Event.setProgress (some pr) :: Event.setError (some e) :: out.2)
      | Except.ok refs =>
        match env.gen k refs p with
        | Except.error msg =>
          let e := errMsg p msg
          let out := genLoop env ch saved total rest (cc + 1) (k + 1) { st1 with error := some e }
          (out.1, Event.setProgress (some pr) :: Event.setError (some e) :: out.2)
        | Except.ok img =>
          let scene : GeneratedScene :=
            ⟨mintId (env.now1 k) (env.rand k), p, img, env.now2 k, none⟩
          let out := genLoop env ch saved total rest (cc + 1) (k + 1)
            { st1 with scenes := st1.scenes ++ [scene] }
          (out.1, Event.setProgress (some pr) :: Event.addScene scene :: out.2)

/-- handleGenerateScenes from src/App.tsx lines 100-189: early return on an
empty list, otherwise set status/error/progress, run the sequential loop,
then restore idle status and clear progress. -/
def handleGenerateScenes (prompts : List String) (env : Env) (st : AppState) :
    AppState × List Event :=
  if prompts = [] then (st, [])
  else
    let p0 : GenerationProgress := ⟨0, prompts.length, none⟩
    let st1 := { st with
      status := GeneratorState.GENERATING_SCENE
      error := none
      progress := some p0 }
    let out := genLoop env st.character st.savedCharacters prompts.length prompts 0 0 st1
    ({ out.1 with status := GeneratorState.IDLE, progress := none },
     Event.setStatus GeneratorState.GENERATING_SCENE :: Event.setError none ::
       Event.setProgress (some p0) :: out.2 ++
       [Event.setStatus GeneratorState.IDLE, Event.setProgress none])

/-! ### Animation job tracker (src/App.tsx lines 191-225, src/services/gemini.ts
animateImage) -/

/-- The possible outcomes of the remote Veo pipeline inside animateImage. -/
inductive AnimOutcome where
  | success (videoUrl : String)
  | animationFailed (msg : String)
  | noVideoUri
  | videoDownloadFailed
deriving DecidableEq, Repr

/-- animateImage from src/services/gemini.ts lines 179-230, as a function of
the remote outcome: the success value is the object URL; each failure path
throws with its specific message (re-thrown unchanged by the catch since the
messages are non-empty). -/
def animateImage : AnimOutcome → Except String String
  | AnimOutcome.success url => Except.ok url
  | AnimOutcome.animationFailed m => Except.error ("Video generation failed: " ++ m)
  | AnimOutcome.noVideoUri => Except.error "No video URI received from API."
  | AnimOutcome.videoDownloadFailed => Except.error "Failed to download generated video."

/-- JS Set.prototype.add on the list model. -/
def setAdd (l : List String) (x : String) : List String :=
  if x ∈ l then l else l ++ [x]

/-- JS Set.prototype.delete on the list model. -/
def setDelete (l : List String) (x : String) : List String :=
  l.filter (fun y => y != x)

/-- handleAnimateScene from src/App.tsx lines 191-225, as a function of the
remote outcome.  Returns the final state together with the intermediate
state that holds while the remote job is pending (none when the scene id is
unknown and the handler returns early). -/
def handleAnimateScene (sceneId : String) (outcome : AnimOutcome) (st : AppState) :
    AppState × Option AppState :=
  match st.scenes.find? (fun s => s.id = sceneId) with
  | none => (st, none)
  | some scene =>
    let pending := { st with animatingSceneIds := setAdd st.animatingSceneIds sceneId }
    let afterAwait :=
      match animateImage outcome with
      | Except.ok url =>
        let upd := fun (s : GeneratedScene) =>
          if s.id = sceneId then { s with videoUrl := some url } else s
        { pending with scenes := pending.scenes.map upd }
      | Except.error m =>
        { pending with error := some ("Animation failed: " ++ m) }
    ({ afterAwait with
        animatingSceneIds := setDelete afterAwait.animatingSceneIds sceneId },
     some pending)

/-! ### Script analysis (src/services/gemini.ts lines 128-174) -/

/-- analyzeScript from src/services/gemini.ts: responseText models the
remote response.text (undefined/null as none), parse models
JSON.parse-then-cast with the thrown SyntaxError message on failure.  The
first component is the script portion embedded in the transmitted prompt,
scriptText.substring(0, 100000); the second the returned value or the
re-thrown error message (error.message with the literal fallback). -/
def analyzeScript (scriptText : String) (knownCharacters : List String)
    (responseText : Option String) (parse : String → Except String (List String)) :
    String × Except String (List String) :=
  let sent := jsSubstring scriptText 100000
  let result :=
    match responseText with
    | none => Except.ok []
    | some t =>
      if t = "" then Except.ok []
      else
        match parse t with
        | Except.ok l => Except.ok l
        | Except.error m =>
          Except.error (if m = "" then "Failed to analyze script" else m)
  (sent, result)

/-! ### Specification-side definitions used to state the claims -/

/-- Per-name reference lookup, the specification counterpart of one step of
the names.forEach loop. -/
def refLookup (pool : List Character) (name : String) : Option Reference :=
  match pool.find? (fun c => jsToLower c.name = jsToLower name) with
  | some found =>
    match found.baseImage with
    | some img => if img = "" then none else some ⟨found.name, img⟩
    | none => none
  | none => none

/-- The prompts of a batch that are not blank after trimming (the ones the
loop body actually processes). -/
def nonBlankPrompts (prompts : List String) : List String :=
  prompts.filter (fun p => !(jsTrim p == ""))

/-- The scenes the batch run appends: one per prompt whose resolution and
remote generation both succeed, in submission order, threading the remote
call counter exactly as the loop does. -/
def sceneSuccesses (env : Env) (ch : Character) (saved : List Character) :
    List String → Nat → List GeneratedScene
  | [], _ => []
  | p :: rest, k =>
    if jsTrim p = "" then sceneSuccesses env ch saved rest k
    else
      match resolveReferences p ch saved with
      | Except.error _ => sceneSuccesses env ch saved rest k
      | Except.ok refs =>
        match env.gen k refs p with
        | Except.error _ => sceneSuccesses env ch saved rest (k + 1)
        | Except.ok img =>
          ⟨mintId (env.now1 k) (env.rand k), p, img, env.now2 k, none⟩ ::
            sceneSuccesses env ch saved rest (k + 1)

/-- The per-prompt event blocks of the loop: each non-blank prompt
contributes one block whose head is its progress publication and whose tail
is its outcome (scene appended, or scoped error recorded). -/
def promptBlocks (env : Env) (ch : Character) (saved : List Character) (total : Nat) :
    List String → Nat → Nat → List (List Event)
  | [], _, _ => []
  | p :: rest, cc, k =>
    if jsTrim p = "" then promptBlocks env ch saved total rest cc k
    else
      let pr : GenerationProgress := ⟨cc + 1, total, some p⟩
      match resolveReferences p ch saved with
      | Except.error msg =>
        [Event.setProgress (some pr), Event.setError (some (errMsg p msg))] ::
          promptBlocks env ch saved total rest (cc + 1) k
      | Except.ok refs =>
        match env.gen k refs p with
        | Except.error msg =>
          [Event.setProgress (some pr), Event.setError (some (errMsg p msg))] ::
            promptBlocks env ch saved total rest (cc + 1) (k + 1)
        | Except.ok img =>
          [Event.setProgress (some pr),
           Event.addScene ⟨mintId (env.now1 k) (env.rand k), p, img, env.now2 k, none⟩] ::
            promptBlocks env ch saved total rest (cc + 1) (k + 1)

/-- The sequence of per-prompt progress records the loop publishes: one per
non-blank prompt, numbered consecutively from cc + 1. -/
def progressList (total : Nat) : List String → Nat → List (Option GenerationProgress)
  | [], _ => []
  | p :: rest, cc =>
    if jsTrim p = "" then progressList total rest cc
    else some ⟨cc + 1, total, some p⟩ :: progressList total rest (cc + 1)

/-- Extract a setProgress payload from an event. -/
def progressOf : Event → Option (Option GenerationProgress)
  | Event.setProgress p => some p
  | _ => none

/-- All progress publications in a trace, in order. -/
def progressPublished (evs : List Event) : List (Option GenerationProgress) :=
  evs.filterMap progressOf

/-- Extract the prompt named by a per-prompt progress publication. -/
def promptOf : Event → Option String
  | Event.setProgress (some pr) => pr.currentPrompt
  | _ => none

/-- The prompts the batch run announced work on, in order. -/
def attemptedPrompts (evs : List Event) : List String :=
  evs.filterMap promptOf

/-! ### Concrete fixtures for witnesses and counterexamples -/

/-- A materialized library character named Alice. -/
def aliceChar : Character := ⟨"c1", "Alice", "a person", some "IMG"⟩

/-- INITIAL_CHARACTER from src/App.tsx lines 8-13: draft, unnamed, no image. -/
def blankChar : Character := ⟨"1", "", "", none⟩

/-- An idle app state with the given active character and library. -/
def mkState (ch : Character) (saved : List Character) : AppState :=
  ⟨ch, [], GeneratorState.IDLE, none, none, saved, []⟩

/-- Environment whose remote scene generation always fails. -/
def envFail : Env :=
  ⟨fun _ _ _ => Except.error "boom", fun _ => 0, fun _ => "0", fun _ => 0⟩

/-- Environment whose remote generation always succeeds, with a clock frozen
inside one millisecond tick and a random source that repeats one value. -/
def envRepeat : Env :=
  ⟨fun _ _ _ => Except.ok "img", fun _ => 5, fun _ => "5", fun _ => 5⟩

/-- A JSON parse oracle that rejects its input with a SyntaxError message. -/
def parseFailW : String → Except String (List String) :=
  fun _ => Except.error "Unexpected token"

deriving instance DecidableEq for Except

/-- A concrete scene used to exercise the animation tracker. -/
def sceneW : GeneratedScene := ⟨"s1", "p", "img", 3, none⟩

/-- An idle state whose gallery holds exactly sceneW. -/
def stW : AppState := { mkState aliceChar [] with scenes := [sceneW] }

/-! ### Helper lemmas -/

/-- The loop appends exactly the successful scenes, whatever state it starts
from: the threaded state never influences which scenes are appended. -/
theorem genLoop_scenes (env : Env) (ch : Character) (saved : List Character) (total : Nat) :
    ∀ (prompts : List String) (cc k : Nat) (st : AppState),
      (genLoop env ch saved total prompts cc k st).1.scenes
        = st.scenes ++ sceneSuccesses env ch saved prompts k := by
  intro prompts
  induction prompts with
  | nil => intro cc k st; simp [genLoop, sceneSuccesses]
  | cons p rest ih =>
    intro cc k st
    by_cases hb : jsTrim p = ""
    · simp [genLoop, sceneSuccesses, hb, ih]
    · cases hr : resolveReferences p ch saved with
      | error msg => simp [genLoop, sceneSuccesses, hb, hr, ih]
      | ok refs =>
        cases hg : env.gen k refs p with
        | error m => simp [genLoop, sceneSuccesses, hb, hr, hg, ih]
        | ok img => simp [genLoop, sceneSuccesses, hb, hr, hg, ih]

/-- The event trace of the loop is the concatenation of the per-prompt
blocks, independently of the threaded state. -/
theorem genLoop_trace (env : Env) (ch : Character) (saved : List Character) (total : Nat) :
    ∀ (prompts : List String) (cc k : Nat) (st : AppState),
      (genLoop env ch saved total prompts cc k st).2
        = (promptBlocks env ch saved total prompts cc k).flatten := by
  intro prompts
  induction prompts with
  | nil => intro cc k st; simp [genLoop, promptBlocks]
  | cons p rest ih =>
    intro cc k st
    by_cases hb : jsTrim p = ""
    · simp [genLoop, promptBlocks, hb, ih]
    · cases hr : resolveReferences p ch saved with
      | error msg => simp [genLoop, promptBlocks, hb, hr, ih]
      | ok refs =>
        cases hg : env.gen k refs p with
        | error m => simp [genLoop, promptBlocks, hb, hr, hg, ih]
        | ok img => simp [genLoop, promptBlocks, hb, hr, hg, ih]

/-- The loop announces work on exactly the non-blank prompts, in order. -/
theorem genLoop_attempted (env : Env) (ch : Character) (saved : List Character) (total : Nat) :
    ∀ (prompts : List String) (cc k : Nat) (st : AppState),
      attemptedPrompts (genLoop env ch saved total prompts cc k st).2
        = nonBlankPrompts prompts := by
  intro prompts
  induction prompts with
  | nil => intro cc k st; simp [genLoop, attemptedPrompts, nonBlankPrompts]
  | cons p rest ih =>
    intro cc k st
    by_cases hb : jsTrim p = ""
    · simpa [genLoop, attemptedPrompts, nonBlankPrompts, hb, List.filter_cons]
        using ih cc k st
    · cases hr : resolveReferences p ch saved with
      | error msg =>
        simpa [genLoop, attemptedPrompts, nonBlankPrompts, hb, hr, promptOf,
          List.filter_cons] using ih (cc + 1) k _
      | ok refs =>
        cases hg : env.gen k refs p with
        | error m =>
          simpa [genLoop, attemptedPrompts, nonBlankPrompts, hb, hr, hg, promptOf,
            List.filter_cons] using ih (cc + 1) (k + 1) _
        | ok img =>
          simpa [genLoop, attemptedPrompts, nonBlankPrompts, hb, hr, hg, promptOf,
            List.filter_cons] using ih (cc + 1) (k + 1) _

/-- The progress records the loop publishes are exactly the consecutively
numbered per-prompt records of the non-blank prompts. -/
theorem genLoop_progress (env : Env) (ch : Character) (saved : List Character) (total : Nat) :
    ∀ (prompts : List String) (cc k : Nat) (st : AppState),
      progressPublished (genLoop env ch saved total prompts cc k st).2
        = progressList total prompts cc := by
  intro prompts
  induction prompts with
  | nil => intro cc k st; simp [genLoop, progressPublished, progressList]
  | cons p rest ih =>
    intro cc k st
    by_cases hb : jsTrim p = ""
    · simpa [genLoop, progressPublished, progressList, hb] using ih cc k st
    · cases hr : resolveReferences p ch saved with
      | error msg =>
        simpa [genLoop, progressPublished, progressList, hb, hr, progressOf]
          using ih (cc + 1) k _
      | ok refs =>
        cases hg : env.gen k refs p with
        | error m =>
          simpa [genLoop, progressPublished, progressList, hb, hr, hg, progressOf]
            using ih (cc + 1) (k + 1) _
        | ok img =>
          simpa [genLoop, progressPublished, progressList, hb, hr, hg, progressOf]
            using ih (cc + 1) (k + 1) _

/-- Every per-prompt block opens with a progress publication carrying the
batch total and the prompt about to be worked on. -/
theorem promptBlocks_shape (env : Env) (ch : Character) (saved : List Character) (total : Nat) :
    ∀ (prompts : List String) (cc k : Nat),
      ∀ b ∈ promptBlocks env ch saved total prompts cc k,
        ∃ pr tail, b = Event.setProgress (some pr) :: tail
          ∧ pr.total = total ∧ ∃ p, pr.currentPrompt = some p := by
  intro prompts
  induction prompts with
  | nil => intro cc k b hb; simp [promptBlocks] at hb
  | cons p rest ih =>
    intro cc k b hb
    by_cases hblank : jsTrim p = ""
    · rw [promptBlocks, if_pos hblank] at hb
      exact ih cc k b hb
    · rw [promptBlocks, if_neg hblank] at hb
      cases hr : resolveReferences p ch saved with
      | error msg =>
        simp only [hr] at hb
        rcases List.mem_cons.mp hb with h1 | h2
        · exact ⟨⟨cc + 1, total, some p⟩, _, h1, rfl, p, rfl⟩
        · exact ih (cc + 1) k b h2
      | ok refs =>
        simp only [hr] at hb
        cases hg : env.gen k refs p with
        | error m =>
          simp only [hg] at hb
          rcases List.mem_cons.mp hb with h1 | h2
          · exact ⟨⟨cc + 1, total, some p⟩, _, h1, rfl, p, rfl⟩
          · exact ih (cc + 1) (k + 1) b h2
        | ok img =>
          simp only [hg] at hb
          rcases List.mem_cons.mp hb with h1 | h2
          · exact ⟨⟨cc + 1, total, some p⟩, _, h1, rfl, p, rfl⟩
          · exact ih (cc + 1) (k + 1) b h2

/-- The foldl of the names.forEach loop is an order-preserving filterMap. -/
theorem buildReferences_eq (pool : List Character) :
    ∀ (names : List String),
      buildReferences pool names = names.filterMap (refLookup pool) := by
  have go : ∀ (names : List String) (acc : List Reference),
      names.foldl
        (fun refs name =>
          match pool.find? (fun c => jsToLower c.name = jsToLower name) with
          | some found =>
            match found.baseImage with
            | some img => if img = "" then refs else refs ++ [⟨found.name, img⟩]
            | none => refs
          | none => refs) acc
        = acc ++ names.filterMap (refLookup pool) := by
    intro names
    induction names with
    | nil => intro acc; simp
    | cons n rest ih =>
      intro acc
      simp only [List.foldl_cons, List.filterMap_cons]
      cases hf : pool.find? (fun c => jsToLower c.name = jsToLower n) with
      | none => simp [refLookup, hf, ih]
      | some found =>
        cases hbi : found.baseImage with
        | none => simp [refLookup, hf, hbi, ih]
        | some img =>
          by_cases hi : img = ""
          · simp [refLookup, hf, hbi, hi, ih]
          · simp [refLookup, hf, hbi, hi, ih]
  intro names
  simpa [buildReferences] using go names []

/-- Adding an element to the modelled Set makes it a member. -/
theorem mem_setAdd_self (l : List String) (x : String) : x ∈ setAdd l x := by
  by_cases h : x ∈ l <;> simp [setAdd, h]

/-- Deleting an element from the modelled Set removes every occurrence. -/
theorem not_mem_setDelete_self (l : List String) (x : String) :
    x ∉ setDelete l x := by
  simp [setDelete]

/-- Appending to a common first component is injective in the second. -/
theorem string_append_left_cancel (s r1 r2 : String) (h : s ++ r1 = s ++ r2) :
    r1 = r2 := by
  have h2 : s.data ++ r1.data = s.data ++ r2.data := by
    have := congrArg String.data h
    simpa [String.data_append] using this
  have h3 := List.append_cancel_left h2
  cases r1; cases r2; exact congrArg String.mk h3

/-- findTagInner stops exactly at the first closing bracket when all
characters before it are matched by the regex dot. -/
theorem findTagInner_append (inner rest : List Char)
    (h : ∀ c ∈ inner, c ≠ ']' ∧ dotMatches c = true) :
    findTagInner (inner ++ ']' :: rest) = some inner := by
  induction inner with
  | nil => simp [findTagInner]
  | cons c cs ih =>
    obtain ⟨hne, hdot⟩ := h c (List.mem_cons_self c cs)
    simp [findTagInner, hne, hdot, ih (fun d hd => h d (List.mem_cons_of_mem c hd))]

/-! ### Claim theorems -/

/-- Claim C10: invoking the scene batch orchestrator with an empty prompt
list is a complete no-op: the state (status, progress, error, scene list)
is returned unchanged and no update event is published. -/
theorem c10_empty_batch_noop (env : Env) (st : AppState) :
    handleGenerateScenes [] env st = (st, []) := by
  simp [handleGenerateScenes]

/-- Claim C1: a failing prompt never prevents the remaining prompts from
being attempted (the loop announces work on every non-blank prompt, in
order, whatever the environment makes fail), and the scene list gains
exactly the scenes of the prompts whose remote generation succeeds, appended
in submission order. -/
theorem c1_partial_failure_isolation (prompts : List String) (env : Env) (st : AppState) :
    (handleGenerateScenes prompts env st).1.scenes
        = st.scenes ++ sceneSuccesses env st.character st.savedCharacters prompts 0
      ∧ attemptedPrompts (handleGenerateScenes prompts env st).2
        = nonBlankPrompts prompts := by
  by_cases h : prompts = []
  · subst h
    simp [handleGenerateScenes, sceneSuccesses, attemptedPrompts, nonBlankPrompts]
  · rw [handleGenerateScenes, if_neg h]
    constructor
    · simpa using genLoop_scenes env st.character st.savedCharacters prompts.length
        prompts 0 0 _
    · simpa [attemptedPrompts, promptOf] using
        genLoop_attempted env st.character st.savedCharacters prompts.length prompts 0 0 _

/-- Claim C2, counterexample: a prompt whose bracket tag is preceded by a
single space is not recognized — the regex is anchored with no allowance
for leading whitespace — so resolution falls through to the (absent) active
character and fails, even though Alice is in the library with an image. -/
theorem c2_counterexample_leading_whitespace :
    tagMatch " [Alice] Alice waves" = none
      ∧ resolveReferences " [Alice] Alice waves" blankChar [aliceChar]
          = Except.error noRefErr := by
  constructor
  · decide
  · decide

/-- Claim C2 as amended: only a bracket tag at the very first character is
recognized — any prompt whose first character is not the opening bracket
(in particular leading whitespace) yields no tag — and a prompt that does
open with a bracket followed by dot-matchable characters and a closing
bracket is recognized with exactly those characters as the tag content. -/
theorem c2_tag_anchored_no_whitespace :
    (∀ (s : String) (c : Char) (cs : List Char),
        s.data = c :: cs → c ≠ '[' → tagMatch s = none)
      ∧ (∀ (inner rest : List Char),
          (∀ c ∈ inner, c ≠ ']' ∧ dotMatches c = true) →
          tagMatch ⟨'[' :: (inner ++ ']' :: rest)⟩ = some ⟨inner⟩) := by
  constructor
  · intro s c cs h hc
    rw [tagMatch, h]
    simp [hc]
  · intro inner rest h
    rw [tagMatch]
    simp [findTagInner_append inner rest h]

/-- Witness for the amended C2 at concrete inputs. -/
theorem c2_tag_anchored_no_whitespace_witness :
    tagMatch " [Alice] x" = none ∧ tagMatch "[Al] y" = some "Al" := by
  constructor
  · exact c2_tag_anchored_no_whitespace.1 " [Alice] x" ' ' "[Alice] x".data rfl (by decide)
  · exact c2_tag_anchored_no_whitespace.2 "Al".data " y".data (by decide)

/-- Claim C3, counterexample: the tag-name loop never deduplicates — a tag
naming Alice twice produces two identical Alice references, so a character
can appear twice in the result. -/
theorem c3_counterexample_no_dedup :
    resolveReferences "[Alice, Alice] waves" blankChar [aliceChar]
        = Except.ok [⟨"Alice", "IMG"⟩, ⟨"Alice", "IMG"⟩]
      ∧ ¬ (([⟨"Alice", "IMG"⟩, ⟨"Alice", "IMG"⟩] : List Reference).map
            Reference.name).Nodup := by
  constructor
  · decide
  · decide

/-- Claim C3 as amended: for every tagged prompt the resolver returns one
reference per tag name that case-insensitively matches a pool character
with an image, in the order the names appear in the tag, silently dropping
unmatched or imageless names — but without deduplication, so a name listed
twice yields two references. -/
theorem c3_tag_references_in_order (pool : List Character) (names : List String) :
    buildReferences pool names = names.filterMap (refLookup pool)
      ∧ (∀ (p : String) (ch : Character) (saved : List Character) (inner : String),
          tagMatch p = some inner →
          (((splitOnComma inner.data).map (fun l => jsTrim ⟨l⟩)).filterMap
              (refLookup (saved ++ (if hasImageAndName ch then [ch] else []))) ≠ []) →
          resolveReferences p ch saved
            = Except.ok (((splitOnComma inner.data).map (fun l => jsTrim ⟨l⟩)).filterMap
                (refLookup (saved ++ (if hasImageAndName ch then [ch] else []))))) := by
  constructor
  · exact buildReferences_eq pool names
  · intro p ch saved inner ht hne
    rw [resolveReferences, ht]
    simp only [buildReferences_eq]
    rw [if_neg hne, if_neg hne]

/-- Witness for the amended C3 at concrete inputs. -/
theorem c3_tag_references_in_order_witness :
    buildReferences [aliceChar] ["Alice"] = ["Alice"].filterMap (refLookup [aliceChar])
      ∧ resolveReferences "[Alice] hi" blankChar [aliceChar]
          = Except.ok [⟨"Alice", "IMG"⟩] := by
  constructor
  · exact (c3_tag_references_in_order [aliceChar] ["Alice"]).1
  · have h := (c3_tag_references_in_order [] []).2 "[Alice] hi" blankChar [aliceChar]
      "Alice" (by decide) (by decide)
    exact h.trans (by decide)

/-- Claim C4: for a prompt without a bracket tag the resolver falls back to
the active character exactly when it has both a (truthy) name and image;
otherwise resolution fails with the no-reference error, and such a prompt
contributes no scene to a batch. -/
theorem c4_no_tag_fallback (p : String) (ch : Character) (saved : List Character)
    (ht : tagMatch p = none) :
    (hasImageAndName ch = true →
        ∃ img, ch.baseImage = some img
          ∧ resolveReferences p ch saved = Except.ok [⟨ch.name, img⟩])
      ∧ (hasImageAndName ch = false →
          resolveReferences p ch saved = Except.error noRefErr
            ∧ ∀ (env : Env) (k : Nat), sceneSuccesses env ch saved [p] k = []) := by
  constructor
  · intro h
    cases hbi : ch.baseImage with
    | none => exact absurd h (by simp [hasImageAndName, hbi])
    | some img =>
      have h2 : img ≠ "" ∧ ch.name ≠ "" := by
        simpa [hasImageAndName, hbi] using h
      refine ⟨img, rfl, ?_⟩
      rw [resolveReferences, ht]
      simp [activeRefs, hbi, h2.1, h2.2]
  · intro h
    have hempty : activeRefs ch = [] := by
      cases hbi : ch.baseImage with
      | none => simp [activeRefs, hbi]
      | some img =>
        have h2 : ¬(img ≠ "" ∧ ch.name ≠ "") := by
          simpa [hasImageAndName, hbi] using h
        simp [activeRefs, hbi]
        intro hi
        rcases not_and_or.mp h2 with hc | hc
        · exact absurd hi (by simpa using hc)
        · simpa using hc
    have hres : resolveReferences p ch saved = Except.error noRefErr := by
      rw [resolveReferences, ht]
      simp [hempty]
    refine ⟨hres, ?_⟩
    intro env k
    by_cases hb : jsTrim p = ""
    · simp [sceneSuccesses, hb]
    · simp [sceneSuccesses, hb, hres]

/-- Witness for C4 at concrete inputs: a materialized active character is
used as the sole reference; the draft initial character makes resolution
fail. -/
theorem c4_no_tag_fallback_witness :
    (∃ img, aliceChar.baseImage = some img
        ∧ resolveReferences "hello" aliceChar [] = Except.ok [⟨aliceChar.name, img⟩])
      ∧ resolveReferences "hello" blankChar [] = Except.error noRefErr := by
  constructor
  · exact (c4_no_tag_fallback "hello" aliceChar [] (by decide)).1 (by decide)
  · exact ((c4_no_tag_fallback "hello" blankChar [] (by decide)).2 (by decide)).1

/-- Claim C5, counterexample: for the batch ["a", " "] with one blank entry,
every published progress record carries total = 2 — the full input length,
blanks included — while only one entry is non-blank, so total does not
count only the non-blank entries. -/
theorem c5_counterexample_total_counts_blanks :
    progressPublished (handleGenerateScenes ["a", " "] envFail (mkState aliceChar [])).2
        = [some ⟨0, 2, none⟩, some ⟨1, 2, some "a"⟩, none]
      ∧ nonBlankPrompts ["a", " "] = ["a"] := by
  constructor
  · decide
  · decide

/-- Claim C5 as amended: the published total is the full input length,
counting blank entries (blank entries are skipped but not filtered before
counting); the whole event trace decomposes into the three opening updates,
one block per non-blank prompt, and the two closing updates, where each
block opens with a progress publication naming the prompt and carrying the
full-input total before any work on it is recorded, and the per-prompt
progress records number the non-blank prompts consecutively from 1. -/
theorem c5_progress_totals_and_order (prompts : List String) (env : Env)
    (st : AppState) (h : prompts ≠ []) :
    ((handleGenerateScenes prompts env st).2
        = Event.setStatus GeneratorState.GENERATING_SCENE :: Event.setError none ::
            Event.setProgress (some ⟨0, prompts.length, none⟩) ::
            ((promptBlocks env st.character st.savedCharacters prompts.length
                prompts 0 0).flatten ++
              [Event.setStatus GeneratorState.IDLE, Event.setProgress none]))
      ∧ (∀ b ∈ promptBlocks env st.character st.savedCharacters prompts.length prompts 0 0,
          ∃ pr tail, b = Event.setProgress (some pr) :: tail
            ∧ pr.total = prompts.length ∧ ∃ p, pr.currentPrompt = some p)
      ∧ progressPublished (handleGenerateScenes prompts env st).2
          = some ⟨0, prompts.length, none⟩ ::
              (progressList prompts.length prompts 0 ++ [none]) := by
  refine ⟨?_, ?_, ?_⟩
  · rw [handleGenerateScenes, if_neg h]
    simpa using genLoop_trace env st.character st.savedCharacters prompts.length
      prompts 0 0 _
  · exact promptBlocks_shape env st.character st.savedCharacters prompts.length prompts 0 0
  · rw [handleGenerateScenes, if_neg h]
    simpa [progressPublished, progressOf] using
      genLoop_progress env st.character st.savedCharacters prompts.length prompts 0 0 _

/-- Witness for the amended C5 at a concrete batch. -/
theorem c5_progress_totals_and_order_witness :
    progressPublished (handleGenerateScenes ["a"] envFail (mkState aliceChar [])).2
        = some ⟨0, 1, none⟩ :: (progressList 1 ["a"] 0 ++ [none]) :=
  (c5_progress_totals_and_order ["a"] envFail (mkState aliceChar [])
    (by decide)).2.2

/-- Claim C6, counterexample: the id scheme Date.now + Math.random offers no
uniqueness guarantee within one millisecond tick — when the clock is frozen
at 5 and the random source repeats the digit string "5", two scenes of the
same batch (same tick, as their equal timestamps show) both get id "55",
so GeneratedScene ids are not unique in the session's scene list. -/
theorem c6_counterexample_duplicate_ids :
    ((handleGenerateScenes ["a", "b"] envRepeat (mkState aliceChar [])).1.scenes.map
        GeneratedScene.id) = ["55", "55"]
      ∧ ¬ ((handleGenerateScenes ["a", "b"] envRepeat
            (mkState aliceChar [])).1.scenes.map GeneratedScene.id).Nodup
      ∧ ((handleGenerateScenes ["a", "b"] envRepeat (mkState aliceChar [])).1.scenes.map
          GeneratedScene.timestamp) = [5, 5] := by
  refine ⟨?_, ?_, ?_⟩
  · decide
  · decide
  · decide

/-- Claim C6 as amended: within one millisecond tick (a fixed Date.now
value) two minted ids are distinct exactly when their random components are
distinct — uniqueness holds for any number of scenes in a tick provided the
random draws are pairwise distinct, and fails when a draw repeats. -/
theorem c6_mintId_unique_iff_rand_distinct (t : Nat) (r1 r2 : String)
    (h : r1 ≠ r2) : mintId t r1 ≠ mintId t r2 := by
  intro he
  exact h (string_append_left_cancel (toString t) r1 r2 he)

/-- Witness for the amended C6 at concrete inputs. -/
theorem c6_mintId_unique_iff_rand_distinct_witness :
    mintId 7 "12" ≠ mintId 7 "13" :=
  c6_mintId_unique_iff_rand_distinct 7 "12" "13" (by decide)

/-- Claim C7: once an animation job starts on an existing scene, the scene
id is in the animating set while the job is pending, and it is absent from
the final state on every exit path — success, remote-error completion,
missing video URI, and download failure alike. -/
theorem c7_animating_set_cleanup (sceneId : String) (outcome : AnimOutcome)
    (st : AppState) (scene : GeneratedScene)
    (h : st.scenes.find? (fun s => s.id = sceneId) = some scene) :
    (∃ p, (handleAnimateScene sceneId outcome st).2 = some p
        ∧ sceneId ∈ p.animatingSceneIds)
      ∧ sceneId ∉ (handleAnimateScene sceneId outcome st).1.animatingSceneIds := by
  rw [handleAnimateScene, h]
  constructor
  · refine ⟨_, rfl, ?_⟩
    exact mem_setAdd_self st.animatingSceneIds sceneId
  · cases outcome with
    | success url => simpa using not_mem_setDelete_self _ sceneId
    | animationFailed m => simpa using not_mem_setDelete_self _ sceneId
    | noVideoUri => simpa using not_mem_setDelete_self _ sceneId
    | videoDownloadFailed => simpa using not_mem_setDelete_self _ sceneId

/-- Witness for C7 at a concrete scene and the failure outcome whose remote
operation completes with an error field set. -/
theorem c7_animating_set_cleanup_witness :
    (∃ p, (handleAnimateScene "s1" (AnimOutcome.animationFailed "quota") stW).2 = some p
        ∧ "s1" ∈ p.animatingSceneIds)
      ∧ "s1" ∉ (handleAnimateScene "s1" (AnimOutcome.animationFailed "quota")
          stW).1.animatingSceneIds :=
  c7_animating_set_cleanup "s1" (AnimOutcome.animationFailed "quota") stW sceneW
    (by decide)

/-- Claim C8: when animation succeeds for scene id S, the scene list keeps
its length, every entry whose id is S keeps its id, prompt, imageData and
timestamp and gains videoUrl as the only change, and every entry whose id
is not S is completely unchanged. -/
theorem c8_success_sets_only_videoUrl (sceneId url : String) (st : AppState)
    (scene : GeneratedScene)
    (h : st.scenes.find? (fun s => s.id = sceneId) = some scene) :
    (handleAnimateScene sceneId (AnimOutcome.success url) st).1.scenes.length
        = st.scenes.length
      ∧ (∀ (i : Nat) (hi : i < st.scenes.length)
          (hif : i < (handleAnimateScene sceneId
            (AnimOutcome.success url) st).1.scenes.length),
          ((st.scenes.get ⟨i, hi⟩).id = sceneId →
            ((handleAnimateScene sceneId (AnimOutcome.success url) st).1.scenes.get
                ⟨i, hif⟩)
              = { st.scenes.get ⟨i, hi⟩ with videoUrl := some url })
          ∧ ((st.scenes.get ⟨i, hi⟩).id ≠ sceneId →
            ((handleAnimateScene sceneId (AnimOutcome.success url) st).1.scenes.get
                ⟨i, hif⟩)
              = st.scenes.get ⟨i, hi⟩)) := by
  rw [handleAnimateScene, h]
  constructor
  · simp [animateImage]
  · intro i hi hif
    constructor
    · intro hid
      simp only [List.get_eq_getElem] at hid
      simp only [animateImage]
      simp [List.get_eq_getElem, List.getElem_map, hid]
    · intro hid
      simp only [List.get_eq_getElem] at hid
      simp only [animateImage]
      simp [List.get_eq_getElem, List.getElem_map, hid]

/-- Witness for C8 at a concrete scene: the stored scene keeps every field
and gains only the videoUrl. -/
theorem c8_success_sets_only_videoUrl_witness :
    (handleAnimateScene "s1" (AnimOutcome.success "blob:v") stW).1.scenes.length
        = stW.scenes.length
      ∧ (handleAnimateScene "s1" (AnimOutcome.success "blob:v") stW).1.scenes
          = [{ sceneW with videoUrl := some "blob:v" }] := by
  have h := c8_success_sets_only_videoUrl "s1" "blob:v" stW sceneW (by decide)
  exact ⟨h.1, by decide⟩

/-- Claim C9, counterexample: on an unparseable remote response the script
analyzer does not return an empty list — the JSON.parse failure propagates
out of the catch as a re-thrown error. -/
theorem c9_counterexample_unparseable_throws :
    (analyzeScript "story" [] (some "not json") parseFailW).2
        = Except.error "Unexpected token"
      ∧ (analyzeScript "story" [] (some "not json") parseFailW).2
          ≠ Except.ok [] := by
  constructor
  · decide
  · decide

/-- Claim C9 as amended: the script portion sent to the remote capability is
the first 100000 characters of the input (so at most 100000 characters);
the analyzer returns an empty list when the remote response is absent or
empty; and when the response is non-empty but unparseable it propagates the
parse error instead of returning an empty list. -/
theorem c9_analyze_truncation_and_errors (s : String) (known : List String)
    (parse : String → Except String (List String)) :
    (analyzeScript s known none parse).2 = Except.ok []
      ∧ (analyzeScript s known (some "") parse).2 = Except.ok []
      ∧ (∀ (resp : Option String),
          (analyzeScript s known resp parse).1.data = s.data.take 100000
            ∧ (analyzeScript s known resp parse).1.length ≤ 100000)
      ∧ (∀ (t m : String), t ≠ "" → parse t = Except.error m → m ≠ "" →
          (analyzeScript s known (some t) parse).2 = Except.error m) := by
  refine ⟨?_, ?_, ?_, ?_⟩
  · simp [analyzeScript]
  · simp [analyzeScript]
  · intro resp
    constructor
    · simp [analyzeScript, jsSubstring]
    · show (s.data.take 100000).length ≤ 100000
      exact List.length_take_le 100000 s.data
  · intro t m htne hp hm
    simp [analyzeScript, htne, hp, hm]

/-- Witness for the amended C9 at concrete inputs. -/
theorem c9_analyze_truncation_and_errors_witness :
    (analyzeScript "abc" [] none parseFailW).2 = Except.ok []
      ∧ (analyzeScript "abc" [] (some "x") parseFailW).2
          = Except.error "Unexpected token" := by
  constructor
  · exact (c9_analyze_truncation_and_errors "abc" [] parseFailW).1
  · exact (c9_analyze_truncation_and_errors "abc" [] parseFailW).2.2.2 "x"
      "Unexpected token" (by decide) rfl (by decide)
